import Mathlib

/-!
Shallow embedding of the core of `sqlsaber-web`: the streaming transcript
aggregator (`src/sqlsaber_web/streaming.py`), the query-execution lifecycle
task (`src/sqlsaber_web/tasks.py`), the runtime-config resolver
(`src/sqlsaber_web/services/user_config.py`) and the thread-continuation
endpoint (`src/sqlsaber_web/api.py`), together with theorems checking the
specification's claims against these definitions.
-/

namespace SqlsaberWeb

/-! ### Data model: persisted messages (`models.Message`) -/

/-- Message type choices of `Message.Type` in `models.py`. -/
inductive MessageType
  | user
  | assistant
  | thinking
  | tool_call
  | tool_result
deriving DecidableEq, Repr

/-- Structured content documents persisted in `Message.content`: `{text: ...}`
for user/assistant/thinking, `{tool_name, tool_args}` for tool calls and
`{tool_name, result}` for tool results.  The tool-argument and result payloads
are opaque documents; they are carried as opaque strings here. -/
inductive MsgContent
  | text (t : String)
  | toolCall (tool_name : String) (tool_args : String)
  | toolResult (tool_name : String) (result : String)
deriving DecidableEq, Repr

/-- One persisted Message row (type plus content; ordering is list order,
mirroring the strictly increasing creation order in the database). -/
structure Message where
  type : MessageType
  content : MsgContent
deriving DecidableEq, Repr

/-! ### Transcript aggregator (`streaming.py`, `DatabaseStreamingHandler`) -/

/-- The kinds a part may carry in the buffer: `TextPart` or `ThinkingPart`.
`_current_kind` stores one of these Python types (or `None`). -/
inductive BufKind
  | text
  | reasoning
deriving DecidableEq, Repr

/-- Kind of the part carried by a `PartStartEvent`: `TextPart`, `ThinkingPart`
or any other part class (tool-call parts etc.), which the handler ignores. -/
inductive PartKind
  | text
  | reasoning
  | other
deriving DecidableEq, Repr

/-- Kind of the delta carried by a `PartDeltaEvent`: `TextPartDelta`,
`ThinkingPartDelta` or any other delta class, which the handler ignores. -/
inductive DeltaKind
  | textDelta
  | thinkingDelta
  | otherDelta
deriving DecidableEq, Repr

/-- Agent stream events dispatched by `DatabaseStreamingHandler.on_event`.
`content_delta` is optional because `TextPartDelta.content_delta` may be
`None` (the handler normalises with `or ""`). -/
inductive Event
  | partStart (kind : PartKind) (content : String)
  | partDelta (kind : DeltaKind) (content_delta : Option String)
  | partEnd
  | toolCallRequested (tool_name : String) (tool_args : String)
  | toolResultReceived (tool_name : String) (result : String)
  | otherEvent
deriving DecidableEq, Repr

/-- The handler's mutable state: `self._buffer` and `self._current_kind`. -/
structure AggState where
  buffer : String
  current_kind : Option BufKind
deriving DecidableEq, Repr

/-- State right after `__init__`: empty buffer, no current kind. -/
def AggState.init : AggState := ⟨"", none⟩

/-- Embedding of `flush_buffer`: no-op if the buffer is empty or no kind is
set (note: in that case neither field is cleared); otherwise persist one
`thinking`/`assistant` Message holding the buffer and reset both fields. -/
def flush_buffer (s : AggState) : AggState × List Message :=
  if s.buffer = "" ∨ s.current_kind = none then (s, [])
  else
    let mt : MessageType :=
      if s.current_kind = some .reasoning then .thinking else .assistant
    (⟨"", none⟩, [⟨mt, .text s.buffer⟩])

/-- Embedding of the body of `on_part_start` for a `TextPart`/`ThinkingPart`:
flush first when a different kind is open, set the new kind, and append the
initial content when it is non-empty. -/
def start_unit (s : AggState) (k : BufKind) (c : String) : AggState × List Message :=
  let fr : AggState × List Message :=
    if s.current_kind ≠ none ∧ s.current_kind ≠ some k then flush_buffer s
    else (s, [])
  let s2 : AggState := { fr.1 with current_kind := some k }
  if c ≠ "" then ({ s2 with buffer := s2.buffer ++ c }, fr.2)
  else (s2, fr.2)

/-- Embedding of `on_event` (the `singledispatchmethod` dispatch): returns the
new state and the Messages persisted while processing this one event, in
persistence order. -/
def on_event (s : AggState) (e : Event) : AggState × List Message :=
  match e with
  | .partStart .text c => start_unit s .text c
  | .partStart .reasoning c => start_unit s .reasoning c
  | .partStart .other _ => (s, [])
  | .partDelta .textDelta cd =>
    let d := cd.getD ""
    if d ≠ "" then ({ s with buffer := s.buffer ++ d }, []) else (s, [])
  | .partDelta .thinkingDelta cd =>
    let d := cd.getD ""
    if d ≠ "" then ({ s with buffer := s.buffer ++ d }, []) else (s, [])
  | .partDelta .otherDelta _ => (s, [])
  | .partEnd => flush_buffer s
  | .toolCallRequested n a =>
    let fr := flush_buffer s
    (fr.1, fr.2 ++ [⟨.tool_call, .toolCall n a⟩])
  | .toolResultReceived n r => (s, [⟨.tool_result, .toolResult n r⟩])
  | .otherEvent => (s, [])

/-- Embedding of `handle_event_stream`: fold `on_event` over the event list,
accumulating persisted Messages in order. -/
def handle_event_stream (s : AggState) (es : List Event) : AggState × List Message :=
  match es with
  | [] => (s, [])
  | e :: rest =>
    let fr := on_event s e
    let rest_fr := handle_event_stream fr.1 rest
    (rest_fr.1, fr.2 ++ rest_fr.2)

/-- One full run over a stream from a fresh handler, followed by the one
unconditional terminal `flush_buffer` the task performs after stream end;
returns all persisted Messages in order. -/
def runWithTerminalFlush (es : List Event) : List Message :=
  let fr := handle_event_stream AggState.init es
  fr.2 ++ (flush_buffer fr.1).2

/-- An alternating `PartStart(text)` / `PartDelta`* / `PartEnd` unit, as in the
spec's testable property for the aggregator. -/
structure TextUnit where
  initial : String
  deltas : List String
deriving DecidableEq, Repr

/-- The event sequence of one alternating text unit. -/
def TextUnit.events (u : TextUnit) : List Event :=
  Event.partStart .text u.initial ::
    (u.deltas.map (fun d => Event.partDelta .textDelta (some d)) ++ [Event.partEnd])

/-- Literal concatenation of a unit's initial content and all of its deltas,
in arrival order. -/
def TextUnit.text (u : TextUnit) : String :=
  u.deltas.foldl (· ++ ·) u.initial

/-! ### User configuration rows (`models.py`) -/

/-- A `UserDatabaseConnection` row (fields the resolver reads). -/
structure Connection where
  id : Nat
  is_active : Bool
  connection_string : String
  memory : String
deriving DecidableEq, Repr

/-- A `UserApiKey` row (fields the resolver reads). -/
structure ApiKey where
  is_active : Bool
  api_key : String
deriving DecidableEq, Repr

/-- A `UserModelConfig` row joined with its `UserApiKey`. -/
structure ModelConfig where
  id : Nat
  is_active : Bool
  model_name : String
  api_key : ApiKey
deriving DecidableEq, Repr

/-- A `UserSettings` row: the default foreign keys, represented directly as
the joined rows (`None` exactly when the foreign key is NULL; Django's
`SET_NULL` means a non-NULL key always resolves to a row). -/
structure UserSettingsRec where
  default_database_connection : Option Connection
  default_model_config : Option ModelConfig
deriving DecidableEq, Repr

/-- A user together with their connection and model-config rows (in
`created_at` order, as the `order_by("created_at")` queries read them) and
their `UserSettings` row. -/
structure UserRec where
  database_connections : List Connection
  model_configs : List ModelConfig
  settings : UserSettingsRec
deriving DecidableEq, Repr

/-! ### Runtime config resolver (`services/user_config.py`) -/

/-- Embedding of `ensure_user_defaults`: when a default is unset, pick the
first active row (for models: active with an active API key) in creation
order, if any. -/
def ensure_user_defaults (u : UserRec) : UserRec :=
  let s := u.settings
  let s :=
    match s.default_database_connection with
    | some _ => s
    | none =>
      match (u.database_connections.filter (fun c : Connection => c.is_active)).head? with
      | some db => { s with default_database_connection := some db }
      | none => s
  let s :=
    match s.default_model_config with
    | some _ => s
    | none =>
      match (u.model_configs.filter
          (fun m : ModelConfig => m.is_active && m.api_key.is_active)).head? with
      | some m => { s with default_model_config := some m }
      | none => s
  { u with settings := s }

/-- The database-selection `if/elif` chain of
`get_runtime_config_for_thread_id`: thread's bound connection when present and
active, else the user's default connection when present and active, else
nothing. -/
def selectDb (bound dflt : Option Connection) : Option Connection :=
  match bound with
  | some c =>
    if c.is_active then some c
    else
      match dflt with
      | some d => if d.is_active then some d else none
      | none => none
  | none =>
    match dflt with
    | some d => if d.is_active then some d else none
    | none => none

/-- The model-selection `if/elif` chain of `get_runtime_config_for_thread_id`:
thread's bound model config when present, active and with an active API key,
else the user's default under the same conditions, else nothing. -/
def selectModel (bound dflt : Option ModelConfig) : Option ModelConfig :=
  match bound with
  | some m =>
    if m.is_active && m.api_key.is_active then some m
    else
      match dflt with
      | some d => if d.is_active && d.api_key.is_active then some d else none
      | none => none
  | none =>
    match dflt with
    | some d => if d.is_active && d.api_key.is_active then some d else none
    | none => none

/-- The distinct `RuntimeError`s `get_runtime_config_for_thread_id` raises,
one per raise site. -/
inductive ConfigError
  | noActiveDatabase
  | noActiveModel
  | emptyConnectionString
  | missingCredential
  | missingModelIdentifier
deriving DecidableEq, Repr

/-- The `str(e)` of each configuration error (the message passed to
`RuntimeError`). -/
def ConfigError.message : ConfigError → String
  | .noActiveDatabase => "No active database connection configured. Add one in /settings."
  | .noActiveModel => "No active model configured. Add one in /settings."
  | .emptyConnectionString => "Database connection is empty. Update it in /settings."
  | .missingCredential => "API key is missing for the selected model."
  | .missingModelIdentifier => "Model name is missing for the selected model."

/-- Python's `str.strip()`: remove leading and trailing whitespace. -/
def strip (s : String) : String :=
  ⟨((s.data.dropWhile Char.isWhitespace).reverse.dropWhile
      Char.isWhitespace).reverse⟩

/-- The `SQLSaberRuntimeConfig` dataclass. -/
structure RuntimeConfig where
  database_connection : String
  model_name : String
  api_key : String
  memory : Option String
deriving DecidableEq, Repr

/-! ### Lifecycle state (`models.Thread`) -/

/-- Thread status choices of `Thread.Status`. -/
inductive ThreadStatus
  | pending
  | running
  | completed
  | error
deriving DecidableEq, Repr

/-- A stored JSON-ish document, as found in `Thread.content` (the model's
default is the empty object `dict`; a transcript is stored as a list).
Non-list, non-string documents are collapsed into the opaque `dict`
constructor, which suffices for every check the code performs on them. -/
inductive HDoc
  | dict
  | str (s : String)
  | list (xs : List HDoc)

/-- Python truthiness of a stored document (`if not thread.content`,
`if message_history:`): empty object, empty string and empty list are falsy. -/
def HDoc.truthy : HDoc → Bool
  | .dict => false
  | .str s => s ≠ ""
  | .list xs => !xs.isEmpty

/-- The `isinstance(..., list)` check on a stored document. -/
def HDoc.isList : HDoc → Bool
  | .list _ => true
  | _ => false

/-- A `Thread` row: the fields the task and the continuation endpoint touch,
plus the thread's persisted Messages in creation order. -/
structure ThreadRec where
  status : ThreadStatus
  content : HDoc
  error_message : String
  messages : List Message
  database_connection : Option Connection
  model_config : Option ModelConfig

/-- Embedding of `get_runtime_config_for_thread_id` given the thread row and
the owning user: ensure defaults, select database then model, validate the
trimmed strings, normalise empty memory to absent. -/
def get_runtime_config_for_thread (u : UserRec) (t : ThreadRec) :
    Except ConfigError RuntimeConfig :=
  match selectDb t.database_connection
      (ensure_user_defaults u).settings.default_database_connection with
  | none => .error .noActiveDatabase
  | some db =>
    match selectModel t.model_config
        (ensure_user_defaults u).settings.default_model_config with
    | none => .error .noActiveModel
    | some m =>
      if strip db.connection_string = "" then .error .emptyConnectionString
      else if strip m.api_key.api_key = "" then .error .missingCredential
      else if strip m.model_name = "" then .error .missingModelIdentifier
      else
        .ok { database_connection := strip db.connection_string,
              model_name := strip m.model_name,
              api_key := strip m.api_key.api_key,
              memory := if strip db.memory = "" then none
                        else some (strip db.memory) }

/-! ### History codec (`tasks.py`: `_MessageHistoryAdapter`,
`to_jsonable_python(result.all_messages)`) -/

/-- Modelled from the spec: one part of an engine-internal message.  The
engine transcript element type (`pydantic_ai.messages.ModelMessage`) is not
part of this repository's sources; the spec describes the codec only as a
lossless structured serialization of the engine's full internal message list,
so parts are modelled as kind/content pairs. -/
structure EnginePart where
  kind : String
  content : String
deriving DecidableEq, Repr

/-- Modelled from the spec: an engine-internal message (request or response
side, each a list of parts), standing in for
`pydantic_ai.messages.ModelMessage`, which is not in this repository. -/
inductive EngineMsg
  | request (parts : List EnginePart)
  | response (parts : List EnginePart)
deriving DecidableEq, Repr

/-- Modelled from the spec: the codec's error on schema mismatch
(`MalformedHistory`; concretely a pydantic validation error). -/
inductive CodecError
  | malformedHistory
deriving DecidableEq, Repr

/-- The `str(e)` stored when history decoding fails. -/
def CodecError.message : CodecError → String
  | .malformedHistory => "validation error for list[ModelMessage]"

/-- Modelled from the spec: serialization of one part. -/
def encodePart (p : EnginePart) : HDoc :=
  .list [.str p.kind, .str p.content]

/-- Modelled from the spec: validation of one serialized part; anything not of
the expected shape is a schema mismatch. -/
def decodePart : HDoc → Except CodecError EnginePart
  | .list [.str k, .str c] => .ok ⟨k, c⟩
  | _ => .error .malformedHistory

/-- Modelled from the spec: serialization of a part list. -/
def encodeParts (ps : List EnginePart) : List HDoc :=
  ps.map encodePart

/-- Modelled from the spec: validation of a serialized part list; the first
mismatching element fails the whole decode (never partially applied). -/
def decodeParts : List HDoc → Except CodecError (List EnginePart)
  | [] => .ok []
  | d :: ds =>
    match decodePart d, decodeParts ds with
    | .ok p, .ok ps => .ok (p :: ps)
    | .error e, _ => .error e
    | .ok _, .error e => .error e

/-- Modelled from the spec: serialization of one engine message (the
`to_jsonable_python` side). -/
def encodeMsg : EngineMsg → HDoc
  | .request ps => .list [.str "request", .list (encodeParts ps)]
  | .response ps => .list [.str "response", .list (encodeParts ps)]

/-- Modelled from the spec: validation of one serialized engine message. -/
def decodeMsg : HDoc → Except CodecError EngineMsg
  | .list [.str tag, .list ps] =>
    if tag = "request" then (decodeParts ps).map .request
    else if tag = "response" then (decodeParts ps).map .response
    else .error .malformedHistory
  | _ => .error .malformedHistory

/-- Modelled from the spec: validation of a serialized message list. -/
def decodeMsgs : List HDoc → Except CodecError (List EngineMsg)
  | [] => .ok []
  | d :: ds =>
    match decodeMsg d, decodeMsgs ds with
    | .ok m, .ok ms => .ok (m :: ms)
    | .error e, _ => .error e
    | .ok _, .error e => .error e

/-- Modelled from the spec: `encode(engine_transcript) -> document`, the
`to_jsonable_python(result.all_messages)` side of the codec. -/
def encodeHistory (t : List EngineMsg) : HDoc :=
  .list (t.map encodeMsg)

/-- Modelled from the spec: `decode(document) -> engine_transcript`, the
`_MessageHistoryAdapter.validate_python` side; a document that is not a list
is a schema mismatch. -/
def decodeHistory : HDoc → Except CodecError (List EngineMsg)
  | .list xs => decodeMsgs xs
  | _ => .error .malformedHistory

/-- The task's history handling: `if message_history:` skips falsy documents
(absent history or an empty list), otherwise the document is decoded. -/
def parseHistory : Option HDoc → Except CodecError (Option (List EngineMsg))
  | none => .ok none
  | some d => if d.truthy then (decodeHistory d).map some else .ok none

/-! ### Query-execution task (`tasks.py`, `run_sqlsaber_query`) -/

/-- Python's `s[:n]`: the first `n` characters of a string. -/
def truncate (s : String) (n : Nat) : String :=
  ⟨s.data.take n⟩

/-- One concrete behavior of the opaque engine (`SQLSaber(...).query`): the
stream events it emits before finishing, and either its final transcript
(`result.all_messages`) or the exception message it raises.  An exception
raised mid-stream is the `.error` outcome with the already-emitted events in
`events`. -/
structure EngineEnv where
  events : List Event
  outcome : Except String (List EngineMsg)

/-- The body of the `try:` block of `run_sqlsaber_query`, after the RUNNING
update: parse history, resolve config, re-check the connection string, run the
engine (streaming Messages through the handler as they arrive), then the
terminal flush and the COMPLETED update.  An error outcome carries the
exception message and the thread row as already mutated at the raise point
(persisted Messages are kept: the database writes already happened). -/
def run_body (env : EngineEnv) (u : UserRec) (t1 : ThreadRec)
    (message_history : Option HDoc) : Except (String × ThreadRec) ThreadRec :=
  match parseHistory message_history with
  | .error e => .error (e.message, t1)
  | .ok _parsed =>
    match get_runtime_config_for_thread u t1 with
    | .error ce => .error (ce.message, t1)
    | .ok cfg =>
      if cfg.database_connection = "" then
        .error ((ConfigError.emptyConnectionString).message, t1)
      else
        let fr := handle_event_stream AggState.init env.events
        let t2 := { t1 with messages := t1.messages ++ fr.2 }
        match env.outcome with
        | .error e => .error (e, t2)
        | .ok transcript =>
          let t3 := { t2 with messages := t2.messages ++ (flush_buffer fr.1).2 }
          .ok { t3 with status := .completed,
                        content := encodeHistory transcript,
                        error_message := "" }

/-- Embedding of `run_sqlsaber_query`: set status RUNNING, run the body, and
on any exception set status ERROR with the message truncated to 1000
characters.  Returns the final thread row and the list of status values
written, in write order. -/
def run_sqlsaber_query (env : EngineEnv) (u : UserRec) (t : ThreadRec)
    (message_history : Option HDoc) : ThreadRec × List ThreadStatus :=
  let t1 : ThreadRec := { t with status := .running }
  match run_body env u t1 message_history with
  | .ok t2 => (t2, [.running, .completed])
  | .error (e, t2) =>
    ({ t2 with status := .error, error_message := truncate e 1000 },
     [.running, .error])

/-! ### Thread continuation endpoint (`api.py`, `continue_thread`) -/

/-- The JSON responses `continue_thread` returns, by HTTP status code. -/
inductive ApiResult
  | badRequest (error : String)
  | conflict (error : String)
  | queued
deriving DecidableEq, Repr

/-- Embedding of `_get_selected_or_default_db` in `api.py`: ensure defaults,
take the explicitly selected id or the default id, and look the id up among
the user's active connections (`if not db_id` also rejects a zero id, 0 being
falsy in the source language). -/
def get_selected_or_default_db (u : UserRec) (selected_id : Option Nat) :
    Option Connection :=
  let u2 := ensure_user_defaults u
  let db_id : Option Nat :=
    match selected_id with
    | some i => some i
    | none => u2.settings.default_database_connection.map (fun c => c.id)
  match db_id with
  | none => none
  | some 0 => none
  | some i =>
    u.database_connections.find? (fun c => c.id == i && c.is_active)

/-- Embedding of `_get_selected_or_default_model` in `api.py`. -/
def get_selected_or_default_model (u : UserRec) (selected_id : Option Nat) :
    Option ModelConfig :=
  let u2 := ensure_user_defaults u
  let model_id : Option Nat :=
    match selected_id with
    | some i => some i
    | none => u2.settings.default_model_config.map (fun m => m.id)
  match model_id with
  | none => none
  | some 0 => none
  | some i =>
    u.model_configs.find? (fun m => m.id == i && m.is_active && m.api_key.is_active)

/-- Embedding of `continue_thread` after authentication and thread lookup:
validate the prompt, reject a RUNNING or PENDING thread with 409, select
database and model, require a non-empty list transcript, then persist the user
Message, bind the selections, reset status to PENDING and enqueue.  Returns
the response and the (possibly updated) thread row. -/
def continue_thread (u : UserRec) (t : ThreadRec) (prompt : String)
    (database_connection_id model_config_id : Option Nat) :
    ApiResult × ThreadRec :=
  let p := strip prompt
  if p = "" then (.badRequest "prompt is required", t)
  else if t.status = .running then
    (.conflict "Thread is currently running. Please wait for completion.", t)
  else if t.status = .pending then
    (.conflict "Thread has not started yet.", t)
  else
    match get_selected_or_default_db u database_connection_id,
          get_selected_or_default_model u model_config_id with
    | some db, some m =>
      if !t.content.truthy || !t.content.isList then
        (.badRequest "No message history available for this thread.", t)
      else
        (.queued,
         { t with messages := t.messages ++ [⟨.user, .text p⟩],
                  database_connection := some db,
                  model_config := some m,
                  status := .pending })
    | _, _ => (.conflict "Configuration required", t)

/-! ### Helper lemmas about the aggregator -/

/-- Processing a concatenation of event lists processes them in sequence and
concatenates the persisted Messages. -/
theorem handle_event_stream_append (s : AggState) (es1 es2 : List Event) :
    handle_event_stream s (es1 ++ es2) =
      ((handle_event_stream (handle_event_stream s es1).1 es2).1,
       (handle_event_stream s es1).2 ++
         (handle_event_stream (handle_event_stream s es1).1 es2).2) := by
  induction es1 generalizing s with
  | nil => simp [handle_event_stream]
  | cons e rest ih => simp [handle_event_stream, ih]

/-- A run of text deltas appends their concatenation to the buffer, persists
nothing and leaves the kind unchanged. -/
theorem handle_deltas (b : String) (k : Option BufKind) (ds : List String) :
    handle_event_stream ⟨b, k⟩
        (ds.map (fun d => Event.partDelta .textDelta (some d))) =
      (⟨ds.foldl (· ++ ·) b, k⟩, []) := by
  induction ds generalizing b with
  | nil => simp [handle_event_stream]
  | cons d ds ih =>
    by_cases hd : d = ""
    · subst hd
      simp [handle_event_stream, on_event, ih, String.append_empty]
    · simp [handle_event_stream, on_event, hd, ih]

/-- Starting a unit from the initial state never flushes and loads the initial
content into the buffer. -/
theorem start_unit_init (k : BufKind) (c : String) :
    start_unit AggState.init k c = (⟨c, some k⟩, []) := by
  by_cases hc : c = ""
  · subst hc; simp [start_unit, AggState.init]
  · simp [start_unit, AggState.init, hc, String.empty_append]

/-- One complete alternating text unit with non-empty total content, processed
from the initial state, persists exactly one assistant Message holding the
literal concatenation and returns the state to initial. -/
theorem handle_unit (u : TextUnit) (h : u.text ≠ "") :
    handle_event_stream AggState.init u.events
      = (AggState.init, [⟨.assistant, .text u.text⟩]) := by
  have hds := handle_deltas u.initial (some .text) u.deltas
  simp only [TextUnit.events, handle_event_stream, on_event, start_unit_init]
  rw [handle_event_stream_append, hds]
  simp [handle_event_stream, on_event, flush_buffer, TextUnit.text] at hds ⊢
  simp [show u.deltas.foldl (· ++ ·) u.initial ≠ "" from h, AggState.init]

/-- A sequence of complete alternating text units, each with non-empty total
content, persists exactly their concatenations as assistant Messages, in
order, and ends back in the initial state. -/
theorem handle_units (units : List TextUnit) (h : ∀ u ∈ units, u.text ≠ "") :
    handle_event_stream AggState.init (units.flatMap TextUnit.events)
      = (AggState.init,
         units.map (fun u => ⟨.assistant, .text u.text⟩)) := by
  induction units with
  | nil => simp [handle_event_stream]
  | cons u us ih =>
    have h1 : u.text ≠ "" := h u (by simp)
    have h2 : ∀ v ∈ us, v.text ≠ "" := fun v hv => h v (by simp [hv])
    simp only [List.flatMap_cons, List.map_cons]
    rw [handle_event_stream_append, handle_unit u h1, ih h2]
    simp

/-- Each complete alternating text unit contains exactly one `PartEnd`. -/
theorem count_partEnd_unit (u : TextUnit) :
    u.events.count Event.partEnd = 1 := by
  have h0 : (u.deltas.map
      (fun d => Event.partDelta .textDelta (some d))).count Event.partEnd = 0 := by
    rw [List.count_eq_zero]
    intro hmem
    simp [List.mem_map] at hmem
  simp [TextUnit.events, List.count_cons, List.count_append, h0]

/-- A sequence of complete alternating text units contains exactly one
`PartEnd` per unit. -/
theorem count_partEnd_flatMap (units : List TextUnit) :
    (units.flatMap TextUnit.events).count Event.partEnd = units.length := by
  induction units with
  | nil => simp
  | cons u us ih =>
    simp [List.count_append, count_partEnd_unit, ih, Nat.add_comm]

/-! ### Claim theorems: transcript aggregator -/

/-- C1, counterexample: an alternating `PartStart(text)`/`PartEnd` unit whose
total content is empty persists no assistant Message at all (flush is a no-op
on an empty buffer), so the number of persisted assistant Messages (0) differs
from the number of `PartEnd` boundaries (1). -/
theorem C1_counterexample :
    ¬ ((runWithTerminalFlush [Event.partStart .text "", Event.partEnd]).countP
          (fun m => m.type == MessageType.assistant)
        = ([Event.partStart .text "", Event.partEnd].count Event.partEnd)) := by
  decide

/-- C1 (amended): for every event sequence consisting solely of alternating
`PartStart(text)`/`PartDelta`/`PartEnd` units, each with non-empty total
content, the number of persisted assistant Messages equals the number of
`PartEnd` boundaries, and each persisted Message's text equals the literal
concatenation of the unit's initial content and all of its content deltas,
with no trimming.  (A unit whose total content is empty persists nothing.) -/
theorem C1_alternating_units (units : List TextUnit)
    (h : ∀ u ∈ units, u.text ≠ "") :
    runWithTerminalFlush (units.flatMap TextUnit.events)
        = units.map (fun u => ⟨.assistant, .text u.text⟩) ∧
    (runWithTerminalFlush (units.flatMap TextUnit.events)).countP
        (fun m => m.type == MessageType.assistant)
      = (units.flatMap TextUnit.events).count Event.partEnd := by
  have hrun : runWithTerminalFlush (units.flatMap TextUnit.events)
      = units.map (fun u => ⟨.assistant, .text u.text⟩) := by
    rw [runWithTerminalFlush, handle_units units h]
    simp [flush_buffer, AggState.init]
  refine ⟨hrun, ?_⟩
  rw [hrun, count_partEnd_flatMap]
  simp [List.countP_map, Function.comp]

/-- C1 witness: scenario A of the spec, `[PartStart(text, "Hello "),
PartDelta(" world"), PartEnd]` persists exactly one assistant Message with
text `"Hello  world"` (literal concatenation, double space preserved). -/
theorem C1_alternating_units_witness :
    (∀ u ∈ [(⟨"Hello ", [" world"]⟩ : TextUnit)], u.text ≠ "") ∧
    runWithTerminalFlush
        ([(⟨"Hello ", [" world"]⟩ : TextUnit)].flatMap TextUnit.events)
      = [⟨.assistant, .text "Hello  world"⟩] ∧
    ([(⟨"Hello ", [" world"]⟩ : TextUnit)].flatMap TextUnit.events).count
        Event.partEnd = 1 := by
  have h : ∀ u ∈ [(⟨"Hello ", [" world"]⟩ : TextUnit)], u.text ≠ "" := by decide
  have hthm := C1_alternating_units [⟨"Hello ", [" world"]⟩] h
  refine ⟨h, ?_, by decide⟩
  rw [hthm.1]
  rfl

/-- C3: a `PartStart(reasoning)` carrying non-empty content, immediately
followed by a `PartStart(text)` with no intervening `PartEnd`, persists a
thinking Message containing exactly the reasoning content, and afterwards the
buffer holds exactly the text unit's initial content — the kind switch without
an explicit end triggered an implicit flush before any text was buffered. -/
theorem C3_kind_switch_implicit_flush (c c2 : String) (h : c ≠ "") :
    handle_event_stream AggState.init
        [Event.partStart .reasoning c, Event.partStart .text c2]
      = (⟨c2, some .text⟩, [⟨.thinking, .text c⟩]) := by
  by_cases h2 : c2 = "" <;>
    simp [handle_event_stream, on_event, start_unit, start_unit_init,
      flush_buffer, AggState.init, h, h2, String.empty_append,
      String.append_empty]

/-- C3 witness: reasoning content `"thinking..."` followed by a text start
with initial content `"Hi"`. -/
theorem C3_kind_switch_implicit_flush_witness :
    ("thinking..." : String) ≠ "" ∧
    handle_event_stream AggState.init
        [Event.partStart .reasoning "thinking...", Event.partStart .text "Hi"]
      = (⟨"Hi", some .text⟩, [⟨.thinking, .text "thinking..."⟩]) :=
  ⟨by decide, C3_kind_switch_implicit_flush "thinking..." "Hi" (by decide)⟩

/-- C4: a `ToolCallRequested` arriving while text is buffered first flushes
the buffered text as an assistant Message and only then persists the
`tool_call` Message with `{tool_name, tool_args}` — in that order, within one
event. -/
theorem C4_toolcall_flush_order (b n a : String) (hb : b ≠ "") :
    on_event ⟨b, some .text⟩ (Event.toolCallRequested n a)
      = (AggState.init,
         [⟨.assistant, .text b⟩, ⟨.tool_call, .toolCall n a⟩]) := by
  simp [on_event, flush_buffer, AggState.init, hb]

/-- C4 witness: buffered narration `"Let me check"` followed by a tool call. -/
theorem C4_toolcall_flush_order_witness :
    ("Let me check" : String) ≠ "" ∧
    on_event ⟨"Let me check", some .text⟩
        (Event.toolCallRequested "query_db" "{sql}")
      = (AggState.init,
         [⟨.assistant, .text "Let me check"⟩,
          ⟨.tool_call, .toolCall "query_db" "{sql}"⟩]) :=
  ⟨by decide, C4_toolcall_flush_order "Let me check" "query_db" "{sql}" (by decide)⟩

/-- C8: a `ToolResultReceived` event persists a `tool_result` Message with
`{tool_name, result}` immediately and performs no prior flush: for every
aggregator state, the state (buffer and current kind) is returned exactly
unchanged. -/
theorem C8_toolresult_no_flush (s : AggState) (n r : String) :
    on_event s (Event.toolResultReceived n r)
      = (s, [⟨.tool_result, .toolResult n r⟩]) := rfl

/-- C10: a content delta arriving while no current kind is set is appended to
the buffer anyway; a flush in that state persists nothing and does not clear
the buffer; and the stray content is silently prepended to the Message of the
next unit a later `PartStart` opens — neither dropped nor persisted on its
own. -/
theorem C10_stray_delta_prepended (b d c : String) (hd : d ≠ "")
    (hbc : b ++ c ≠ "") :
    on_event ⟨b, none⟩ (Event.partDelta .textDelta (some d))
      = (⟨b ++ d, none⟩, []) ∧
    flush_buffer ⟨b, none⟩ = (⟨b, none⟩, []) ∧
    handle_event_stream ⟨b, none⟩
        [Event.partEnd, Event.partStart .text c, Event.partEnd]
      = (AggState.init, [⟨.assistant, .text (b ++ c)⟩]) := by
  refine ⟨by simp [on_event, hd], by simp [flush_buffer], ?_⟩
  by_cases hc : c = ""
  · simp [handle_event_stream, on_event, start_unit, flush_buffer,
      AggState.init, hc, String.append_empty] at hbc ⊢
    simp [hbc]
  · simp [handle_event_stream, on_event, start_unit, flush_buffer,
      AggState.init, hc, hbc, String.append_empty]

/-- C10 witness: stray content `"stray"`, delta `"x"`, next unit `"next"`. -/
theorem C10_stray_delta_prepended_witness :
    ("x" : String) ≠ "" ∧ ("stray" ++ "next" : String) ≠ "" ∧
    handle_event_stream ⟨"stray", none⟩
        [Event.partEnd, Event.partStart .text "next", Event.partEnd]
      = (AggState.init, [⟨.assistant, .text ("stray" ++ "next")⟩]) :=
  ⟨by decide, by decide,
   (C10_stray_delta_prepended "stray" "x" "next" (by decide) (by decide)).2.2⟩

/-! ### Helper lemmas about the history codec -/

/-- Decoding an encoded part recovers it exactly. -/
theorem decodePart_encodePart (p : EnginePart) :
    decodePart (encodePart p) = .ok p := rfl

/-- Decoding an encoded part list recovers it exactly. -/
theorem decodeParts_encodeParts (ps : List EnginePart) :
    decodeParts (encodeParts ps) = .ok ps := by
  induction ps with
  | nil => rfl
  | cons p ps ih =>
    simp only [encodeParts] at ih
    simp [encodeParts, decodeParts, decodePart_encodePart, ih]

/-- Decoding an encoded engine message recovers it exactly. -/
theorem decodeMsg_encodeMsg (m : EngineMsg) :
    decodeMsg (encodeMsg m) = .ok m := by
  cases m with
  | request ps =>
    simp [encodeMsg, decodeMsg, decodeParts_encodeParts, Except.map]
  | response ps =>
    simp [encodeMsg, decodeMsg, decodeParts_encodeParts, Except.map]

/-- Decoding an encoded message list recovers it exactly. -/
theorem decodeMsgs_encodeMsgs (t : List EngineMsg) :
    decodeMsgs (t.map encodeMsg) = .ok t := by
  induction t with
  | nil => rfl
  | cons m ms ih => simp [decodeMsgs, decodeMsg_encodeMsg, ih]

/-! ### Claim theorems: history codec -/

/-- C6: the history codec is a lossless round-trip — for every valid final
transcript, `decode (encode transcript)` is structurally equal to the
transcript — and `decode` applied to a document that is not a list (the opaque
default object, or any string) fails with the distinguishable
`MalformedHistory` error rather than producing a partial or garbled history. -/
theorem C6_codec_roundtrip :
    (∀ t : List EngineMsg, decodeHistory (encodeHistory t) = .ok t) ∧
    decodeHistory .dict = .error .malformedHistory ∧
    (∀ s, decodeHistory (.str s) = .error .malformedHistory) := by
  refine ⟨fun t => ?_, rfl, fun s => rfl⟩
  simp [encodeHistory, decodeHistory, decodeMsgs_encodeMsgs]

/-! ### Concrete fixtures used by the witnesses -/

/-- An active API key. -/
def sampleKey : ApiKey := ⟨true, "sk-key"⟩

/-- An active model config with an active API key. -/
def sampleModel : ModelConfig := ⟨7, true, "anthropic:claude", sampleKey⟩

/-- An active database connection. -/
def activeConn : Connection := ⟨3, true, "postgres://db", ""⟩

/-- The same connection after deactivation (soft delete). -/
def inactiveConn : Connection := ⟨3, false, "postgres://db", ""⟩

/-- A user whose only (active) connection is their default. -/
def sampleUser : UserRec :=
  ⟨[activeConn], [sampleModel], ⟨some activeConn, some sampleModel⟩⟩

/-- The same user after their only database connection was deactivated; the
default still references the now-inactive row. -/
def sampleUserInactive : UserRec :=
  ⟨[inactiveConn], [sampleModel], ⟨some inactiveConn, some sampleModel⟩⟩

/-- A completed thread with a stored list transcript and no bound database or
model. -/
def sampleThread : ThreadRec :=
  ⟨.completed, .list [.str "x"], "", [], none, none⟩

/-! ### Claim theorems: runtime config resolver -/

/-- C7: database resolution follows the fallback order — the thread's bound
connection when present and active; otherwise the owning user's default
connection (after `ensure_user_defaults`) when present and active; and when
the selection comes up empty the resolver fails with `NoActiveDatabase`.  The
two spec scenarios (no bound or inactive-bound database falling back to the
one active default, and deactivating the user's only database failing the next
resolution) are instances, exercised in the witness. -/
theorem C7_db_resolution (u : UserRec) (t : ThreadRec) :
    (∀ c, t.database_connection = some c → c.is_active = true →
        selectDb t.database_connection
          (ensure_user_defaults u).settings.default_database_connection
          = some c) ∧
    (∀ c, (t.database_connection = none ∨
           ∃ b, t.database_connection = some b ∧ b.is_active = false) →
        (ensure_user_defaults u).settings.default_database_connection = some c →
        c.is_active = true →
        selectDb t.database_connection
          (ensure_user_defaults u).settings.default_database_connection
          = some c) ∧
    (selectDb t.database_connection
        (ensure_user_defaults u).settings.default_database_connection = none →
      get_runtime_config_for_thread u t = .error .noActiveDatabase) := by
  refine ⟨?_, ?_, ?_⟩
  · intro c hc ha
    rw [hc]
    simp [selectDb, ha]
  · intro c hbc hd ha
    rcases hbc with hnone | ⟨b, hb, hbact⟩
    · rw [hnone, hd]
      simp [selectDb, ha]
    · rw [hb, hd]
      simp [selectDb, ha, hbact]
  · intro hnone
    unfold get_runtime_config_for_thread
    simp only [hnone]

/-- C7 witness: a thread with no bound database and a user whose one active
connection is the default resolves to that default; after deactivating the
user's only database, the full resolver fails with `NoActiveDatabase`. -/
theorem C7_db_resolution_witness :
    selectDb sampleThread.database_connection
        (ensure_user_defaults sampleUser).settings.default_database_connection
      = some activeConn ∧
    selectDb sampleThread.database_connection
        (ensure_user_defaults sampleUserInactive).settings.default_database_connection
      = none ∧
    get_runtime_config_for_thread sampleUserInactive sampleThread
      = .error .noActiveDatabase := by
  refine ⟨(C7_db_resolution sampleUser sampleThread).2.1 activeConn
      (Or.inl rfl) rfl rfl, by decide,
    (C7_db_resolution sampleUserInactive sampleThread).2.2 (by decide)⟩

/-! ### Helper lemmas about the query-execution task -/

/-- The resolver reads no thread field other than the bound connection and
model config, so the RUNNING transition does not affect it. -/
theorem get_runtime_config_status_irrel (u : UserRec) (t : ThreadRec)
    (st : ThreadStatus) :
    get_runtime_config_for_thread u { t with status := st }
      = get_runtime_config_for_thread u t := rfl

/-- A successfully resolved runtime config never carries an empty connection
string (the resolver validates it), so the task's re-check cannot fire. -/
theorem runtime_config_db_nonempty {u : UserRec} {t : ThreadRec}
    {cfg : RuntimeConfig}
    (hc : get_runtime_config_for_thread u t = .ok cfg) :
    cfg.database_connection ≠ "" := by
  unfold get_runtime_config_for_thread at hc
  split at hc
  · exact Except.noConfusion hc
  · split at hc
    · exact Except.noConfusion hc
    · split at hc
      · exact Except.noConfusion hc
      · split at hc
        · exact Except.noConfusion hc
        · split at hc
          · exact Except.noConfusion hc
          · injection hc with h
            subst h
            simp_all

/-- When the `try:` body of the task succeeds, the thread row it produces has
status COMPLETED. -/
theorem run_body_ok_status {env : EngineEnv} {u : UserRec} {t1 : ThreadRec}
    {h : Option HDoc} {t2 : ThreadRec}
    (hok : run_body env u t1 h = .ok t2) : t2.status = .completed := by
  unfold run_body at hok
  split at hok
  · exact Except.noConfusion hok
  · split at hok
    · exact Except.noConfusion hok
    · split at hok
      · exact Except.noConfusion hok
      · split at hok
        · exact Except.noConfusion hok
        · injection hok with h2
          subst h2
          rfl

/-- Truncation to `n` characters yields at most `n` characters. -/
theorem truncate_length_le (s : String) (n : Nat) :
    (truncate s n).length ≤ n := by
  cases s with
  | mk data =>
    simp only [truncate, String.length]
    exact List.length_take_le n data

/-- Truncating a non-empty string to a positive length is non-empty. -/
theorem truncate_ne_empty {s : String} (h : s ≠ "") {n : Nat} (hn : 0 < n) :
    truncate s n ≠ "" := by
  intro hc
  apply h
  cases s with
  | mk data =>
    have hd : data.take n = [] := congrArg String.data hc
    rw [List.take_eq_nil_iff] at hd
    rcases hd with h1 | h1
    · omega
    · simp [h1]

/-! ### Claim theorems: query-execution task and thread lifecycle -/

/-- C2: every invocation of the task reaches exactly one of the terminal
statuses COMPLETED or ERROR by the time it returns — the thread is never left
in RUNNING — whatever the history document, config resolution outcome or
engine outcome.  Non-propagation of exceptions is reflected by the embedding
being a total function into a thread row (the blanket `except` around the
whole body): every failure of any step is mapped to the ERROR branch rather
than to an exceptional result. -/
theorem C2_terminal_status (env : EngineEnv) (u : UserRec) (t : ThreadRec)
    (h : Option HDoc) :
    (run_sqlsaber_query env u t h).1.status = .completed ∨
    (run_sqlsaber_query env u t h).1.status = .error := by
  rcases hb : run_body env u { t with status := .running } h with p | t2
  · obtain ⟨e, t3⟩ := p
    simp [run_sqlsaber_query, hb]
  · simp [run_sqlsaber_query, hb, run_body_ok_status hb]

/-- C5, counterexample: the error description stored on engine failure is
`str(e)[:1000]`, and `str(e)` is empty for an exception constructed without a
message; with the engine raising such an exception after two Messages were
already persisted (history parsed, config resolved), the thread ends in ERROR
with an *empty* error description — refuting the claim's unconditionally
non-empty error description. -/
theorem C5_empty_error_counterexample :
    (run_sqlsaber_query
        ⟨[Event.partStart .reasoning "thinking...", Event.partEnd,
          Event.toolCallRequested "query_db" "{sql}"], .error ""⟩
        sampleUser sampleThread none).1.status = .error ∧
    (run_sqlsaber_query
        ⟨[Event.partStart .reasoning "thinking...", Event.partEnd,
          Event.toolCallRequested "query_db" "{sql}"], .error ""⟩
        sampleUser sampleThread none).1.messages ≠ [] ∧
    (run_sqlsaber_query
        ⟨[Event.partStart .reasoning "thinking...", Event.partEnd,
          Event.toolCallRequested "query_db" "{sql}"], .error ""⟩
        sampleUser sampleThread none).1.error_message = "" := by
  refine ⟨by decide, by decide, by decide⟩

/-- C5 (amended): when the engine raises after some Messages were already
persisted, the thread ends in status ERROR with an error description equal to
the exception's message truncated to 1000 characters — of bounded length, and
non-empty whenever the exception's message is non-empty — every
already-persisted Message is left unchanged (the prior Messages and the ones
streamed before the failure are exactly the final Message list), and the
stored transcript document is untouched: the error path writes only the
status and error fields. -/
theorem C5_error_path_bounded (env : EngineEnv) (u : UserRec)
    (t : ThreadRec) (h : Option HDoc) (ph : Option (List EngineMsg))
    (cfg : RuntimeConfig) (e : String)
    (hp : parseHistory h = .ok ph)
    (hc : get_runtime_config_for_thread u t = .ok cfg)
    (ho : env.outcome = .error e)
    (_hm : (handle_event_stream AggState.init env.events).2 ≠ []) :
    (run_sqlsaber_query env u t h).1.status = .error ∧
    (run_sqlsaber_query env u t h).1.error_message = truncate e 1000 ∧
    (run_sqlsaber_query env u t h).1.error_message.length ≤ 1000 ∧
    (e ≠ "" → (run_sqlsaber_query env u t h).1.error_message ≠ "") ∧
    (run_sqlsaber_query env u t h).1.messages
      = t.messages ++ (handle_event_stream AggState.init env.events).2 ∧
    (run_sqlsaber_query env u t h).1.content = t.content := by
  have hc1 : get_runtime_config_for_thread u { t with status := .running }
      = .ok cfg := by rw [get_runtime_config_status_irrel]; exact hc
  have hb : run_body env u { t with status := .running } h
      = .error (e, { t with
          status := .running,
          messages := t.messages
            ++ (handle_event_stream AggState.init env.events).2 }) := by
    unfold run_body
    rw [hp, hc1, ho]
    simp [runtime_config_db_nonempty hc]
  simp only [run_sqlsaber_query, hb]
  refine ⟨?_, ?_, truncate_length_le e 1000,
    fun he => truncate_ne_empty he (by omega), ?_, ?_⟩ <;>
    first | rfl | trivial

/-- C5 witness: an engine run that streams a thinking Message and a tool-call
Message and then raises `"boom"`, against a configured user and a thread with
no prior Messages. -/
theorem C5_error_path_bounded_witness :
    (run_sqlsaber_query
        ⟨[Event.partStart .reasoning "thinking...", Event.partEnd,
          Event.toolCallRequested "query_db" "{sql}"], .error "boom"⟩
        sampleUser sampleThread none).1.status = .error ∧
    (run_sqlsaber_query
        ⟨[Event.partStart .reasoning "thinking...", Event.partEnd,
          Event.toolCallRequested "query_db" "{sql}"], .error "boom"⟩
        sampleUser sampleThread none).1.error_message = truncate "boom" 1000 ∧
    (run_sqlsaber_query
        ⟨[Event.partStart .reasoning "thinking...", Event.partEnd,
          Event.toolCallRequested "query_db" "{sql}"], .error "boom"⟩
        sampleUser sampleThread none).1.error_message ≠ "" ∧
    (run_sqlsaber_query
        ⟨[Event.partStart .reasoning "thinking...", Event.partEnd,
          Event.toolCallRequested "query_db" "{sql}"], .error "boom"⟩
        sampleUser sampleThread none).1.messages
      = sampleThread.messages
        ++ (handle_event_stream AggState.init
              [Event.partStart .reasoning "thinking...", Event.partEnd,
               Event.toolCallRequested "query_db" "{sql}"]).2 := by
  have hthm := C5_error_path_bounded
    ⟨[Event.partStart .reasoning "thinking...", Event.partEnd,
      Event.toolCallRequested "query_db" "{sql}"], .error "boom"⟩
    sampleUser sampleThread none none
    ⟨"postgres://db", "anthropic:claude", "sk-key", none⟩ "boom"
    rfl rfl rfl (by decide)
  exact ⟨hthm.1, hthm.2.1, hthm.2.2.2.1 (by decide), hthm.2.2.2.2.1⟩

/-- C9: thread status is monotonic within one query-attempt cycle — the task
writes exactly the status sequence RUNNING, COMPLETED or RUNNING, ERROR — and
a follow-up prompt resets status to PENDING only from a terminal state: a
continuation request against a RUNNING or PENDING thread is rejected and
leaves the thread unchanged, while a request that is accepted (queued) implies
the thread was COMPLETED or ERROR and ends with status PENDING. -/
theorem C9_status_protocol (env : EngineEnv) (u : UserRec) (t : ThreadRec)
    (h : Option HDoc) (u2 : UserRec) (t2 : ThreadRec) (prompt : String)
    (dbid mid : Option Nat) :
    ((run_sqlsaber_query env u t h).2 = [.running, .completed] ∨
     (run_sqlsaber_query env u t h).2 = [.running, .error]) ∧
    (t2.status = .running ∨ t2.status = .pending →
      (continue_thread u2 t2 prompt dbid mid).1 ≠ .queued ∧
      (continue_thread u2 t2 prompt dbid mid).2 = t2) ∧
    ((continue_thread u2 t2 prompt dbid mid).1 = .queued →
      (t2.status = .completed ∨ t2.status = .error) ∧
      (continue_thread u2 t2 prompt dbid mid).2.status = .pending) := by
  refine ⟨?_, ?_, ?_⟩
  · rcases hb : run_body env u { t with status := .running } h with p | t3
    · obtain ⟨e, t4⟩ := p
      simp [run_sqlsaber_query, hb]
    · simp [run_sqlsaber_query, hb]
  · intro hst
    unfold continue_thread
    by_cases hpr : strip prompt = ""
    · simp [hpr]
    · rcases hst with h1 | h1 <;> simp [hpr, h1]
  · intro hq
    unfold continue_thread at hq ⊢
    by_cases hpr : strip prompt = ""
    · simp [hpr] at hq
    · by_cases hr : t2.status = .running
      · simp [hpr, hr] at hq
      · by_cases hpd : t2.status = .pending
        · simp [hpr, hr, hpd] at hq
        · rcases hdb : get_selected_or_default_db u2 dbid with _ | db
          · simp [hpr, hr, hpd, hdb] at hq
          · rcases hmc : get_selected_or_default_model u2 mid with _ | m
            · simp [hpr, hr, hpd, hdb, hmc] at hq
            · by_cases hct : (!t2.content.truthy || !t2.content.isList) = true
              · simp [hpr, hr, hpd, hdb, hmc, hct] at hq
              · refine ⟨?_, by simp [hpr, hr, hpd, hdb, hmc, hct]⟩
                cases hs : t2.status with
                | pending => exact absurd hs hpd
                | running => exact absurd hs hr
                | completed => exact Or.inl rfl
                | error => exact Or.inr rfl

/-- C9 witness: a concrete run writes RUNNING then a terminal status; a
continuation against the RUNNING copy of the sample thread is rejected
unchanged; a continuation against the COMPLETED sample thread is accepted,
the prior status was terminal, and the new status is PENDING. -/
theorem C9_status_protocol_witness :
    ((run_sqlsaber_query ⟨[], .ok []⟩ sampleUser sampleThread none).2
        = [.running, .completed] ∨
     (run_sqlsaber_query ⟨[], .ok []⟩ sampleUser sampleThread none).2
        = [.running, .error]) ∧
    ((continue_thread sampleUser { sampleThread with status := .running }
        "hi" none none).1 ≠ .queued ∧
     (continue_thread sampleUser { sampleThread with status := .running }
        "hi" none none).2 = { sampleThread with status := .running }) ∧
    ((sampleThread.status = .completed ∨ sampleThread.status = .error) ∧
     (continue_thread sampleUser sampleThread "hi" none none).2.status
        = .pending) := by
  refine ⟨(C9_status_protocol ⟨[], .ok []⟩ sampleUser sampleThread none
      sampleUser sampleThread "hi" none none).1, ?_, ?_⟩
  · exact (C9_status_protocol ⟨[], .ok []⟩ sampleUser sampleThread none
      sampleUser { sampleThread with status := .running } "hi" none none).2.1
      (Or.inl rfl)
  · exact (C9_status_protocol ⟨[], .ok []⟩ sampleUser sampleThread none
      sampleUser sampleThread "hi" none none).2.2 (by decide)

end SqlsaberWeb
